import Mathlib

/-!
Verification of the navigation transition engine (`src/app-history.ts`,
`src/navigation-transition.ts`).

The development shallowly embeds the data model and operations of the engine:
history entries, the Navigator's shared state (`#entries` / `#known` /
`#currentIndex`), the serialized transition chain, the dispose sweep, the
rollback machinery, the rejection policy of `NavigationTransitionRejected`
and the sub-operation drain loops.  Stateful code becomes explicit state
passing; promise-based control flow becomes an explicit ordered event
timeline; fallible code returns `Except`.
-/

/-- A history entry.  `id` is the per-entry identity (unique across all
entries a Navigator ever creates), `key` is the logical-slot identity shared
between an original entry and its replace-in-place clones.  The opaque
caller state payload is modelled as a `Nat`. -/
structure Entry where
  id : Nat
  key : Nat
  url : String
  sameDocument : Bool
  state : Nat
deriving DecidableEq, Repr

instance : Inhabited Entry := ⟨⟨0, 0, "", false, 0⟩⟩

/-- Errors raised by the engine.  `invalidState` embeds
`InvalidStateError(message)`; `appError` stands for an arbitrary
application-level failure raised from a listener or sub-operation. -/
inductive NavErr where
  | invalidState (msg : String)
  | appError (code : Nat)
deriving DecidableEq, Repr

/-- The Navigator's shared mutable core: `#entries`, `#known` (a JS `Set`,
modelled as a duplicate-free list in insertion order) and `#currentIndex`
(an `Int` because the empty history uses `-1`). -/
structure Core where
  entries : List Entry
  known : List Entry
  currentIndex : Int
deriving DecidableEq, Repr

/-- JS array indexing `l[i]`: `undefined` (here `none`) for a negative or
out-of-range index. -/
def jsIndex (l : List Entry) (i : Int) : Option Entry :=
  if 0 ≤ i then l.get? i.toNat else none

/-- JS `new Set([...a, ...b])`: elements of `a` in order, then the elements
of `b` not already present. -/
def jsSetUnion (a b : List Entry) : List Entry :=
  a ++ b.filter (fun e => decide (e ∉ a))

/-- Navigator state as seen by `#immediateTransition`: the shared core plus
the defensive `#transitionInProgressCount` ("Should be always 0 or 1"). -/
structure NavCount where
  core : Core
  transitionInProgressCount : Nat
deriving DecidableEq, Repr

/-- Result of one `#immediateTransition` call: the error it propagated (if
any), the state after its `finally` decrement, the peak value the counter
reached during the call, and whether the defensive
`InvalidStateError("Unexpected multiple transitions")` branch was taken. -/
structure ImmediateResult where
  error : Option NavErr
  state : NavCount
  peakCount : Nat
  multipleTransitionsTripped : Bool
deriving Repr

/-- One `#immediateTransition` call (app-history.ts lines 195-205): increment
the counter, throw `InvalidStateError("Unexpected multiple transitions")` if
it exceeds 1, otherwise run the `#transition` body, and decrement in the
`finally`.  The body acts on the shared core only: `#transition` never
touches the counter. -/
def immediateTransition (body : Core → Option NavErr × Core) (s : NavCount) :
    ImmediateResult :=
  let entered := s.transitionInProgressCount + 1
  if entered > 1 then
    { error := some (NavErr.invalidState "Unexpected multiple transitions")
      state := { core := s.core, transitionInProgressCount := entered - 1 }
      peakCount := entered
      multipleTransitionsTripped := true }
  else
    let r := body s.core
    { error := r.1
      state := { core := r.2, transitionInProgressCount := entered - 1 }
      peakCount := entered
      multipleTransitionsTripped := false }

/-- The serialized enqueue protocol of `#commitTransition` (lines 161-187):
each accepted request is chained onto `#activePromise`, so its
`#immediateTransition` body starts only after the previous chained call has
fully settled (its `finally` included); chain-link errors are swallowed by
the `.catch` so a failure never prevents the next link from running.
`runChain` executes the chained calls in order and records each call's peak
counter value and whether its defensive branch was taken. -/
def runChain (bodies : List (Core → Option NavErr × Core)) (s : NavCount) :
    NavCount × List (Nat × Bool) :=
  match bodies with
  | [] => (s, [])
  | b :: rest =>
    let r := immediateTransition b s
    let rec' := runChain rest r.state
    (rec'.1, (r.peakCount, r.multipleTransitionsTripped) :: rec'.2)

/-- An entry of `#known` is still reachable when some entry of `#entries`
carries its key (`findIndex(entry => entry.key === known.key) !== -1`). -/
def reachable (entries : List Entry) (k : Entry) : Bool :=
  entries.any (fun e => decide (e.key = k.key))

/-- `#dispose`: iterate over `#known` in insertion order; every entry whose
key no longer occurs in `#entries` is deleted from `#known` and a dispose
event fires for it.  `#entries` is not modified by the loop, so the sweep is
a partition of the known list by reachability.  Returns (kept, fired). -/
def disposeSweep (entries : List Entry) : List Entry → List Entry × List Entry
  | [] => ([], [])
  | k :: rest =>
    let r := disposeSweep entries rest
    if reachable entries k then (k :: r.1, r.2) else (r.1, k :: r.2)

/-- The `current` getter (app-history.ts lines 66-71): `undefined` when
`#currentIndex` is `-1`, otherwise `#entries[#currentIndex]`. -/
def currentOf (c : Core) : Option Entry :=
  if c.currentIndex = -1 then none else jsIndex c.entries c.currentIndex

/-- The snapshot closed over by a `#createRollback` callback (lines
207-221): the `current` entry, a fresh copy of `#entries`, the value of
`#currentIndex`, and `#known`.  The code captures the `#known` Set by
reference, but every mutation path reassigns `#known` to a fresh Set before
the old object could be pruned, so the captured object keeps its
capture-time membership and a by-value capture is faithful. -/
structure Snapshot where
  current : Option Entry
  previousEntries : List Entry
  previousIndex : Int
  known : List Entry
deriving DecidableEq, Repr

def captureSnapshot (c : Core) : Snapshot :=
  { current := currentOf c
    previousEntries := c.entries
    previousIndex := c.currentIndex
    known := c.known }

/-- Modelled from the spec: `createAppHistoryTransition` (its file
`create-app-history-transition.ts` is not under src/) for the `Rollback`
navigation type yields the snapshot carried in the options — "Rollback
restores `entries`, `currentIndex`, and `known` to byte-identical snapshots
taken at the failing transition's start". -/
def createTransitionRollbackResult (snap : Snapshot) :
    List Entry × Int × List Entry :=
  (snap.previousEntries, snap.previousIndex, snap.known)

/-- The state effect on the Navigator core of invoking a rollback callback
produced by `#createRollback` (lines 222-245), together with the dispose
events it fires.  With no `current` entry at capture time the call reenters
`#transition` with the `Unset` type and hits the early-return branch (lines
286-292): `#entries := options.entries`, `#currentIndex := options.index`,
`#known := new Set([...#known, ...options.known])` — then only the `finally`
sweep (line 414) runs.  With a `current` entry the call reenters with the
`Rollback` type: the spec-modelled `createAppHistoryTransition` result is
committed by lines 343-345 (`#known` again via the Set union), followed by
the in-protocol sweep (line 356) and the `finally` sweep (line 414). -/
def rollbackInvocation (snap : Snapshot) (c : Core) : Core × List Entry :=
  match snap.current with
  | none =>
    let c1 : Core :=
      { entries := snap.previousEntries
        known := jsSetUnion c.known snap.known
        currentIndex := snap.previousIndex }
    let r := disposeSweep c1.entries c1.known
    ({ c1 with known := r.1 }, r.2)
  | some _ =>
    let res := createTransitionRollbackResult snap
    let c1 : Core :=
      { entries := res.1
        known := jsSetUnion c.known res.2.2
        currentIndex := res.2.1 }
    let r1 := disposeSweep c1.entries c1.known
    let r2 := disposeSweep c1.entries r1.1
    ({ c1 with known := r2.1 }, r1.2 ++ r2.2)

/-- The pre-rollback Navigator core used by the C2 counterexample: a replace
navigation of the single-entry history `[entryA]` has committed its mutation
(the clone `entryAClone` shares `entryA`'s key 10 but has a fresh id) and
then failed. -/
def entryA : Entry := { id := 0, key := 10, url := "/a", sameDocument := true, state := 0 }

def entryAClone : Entry := { id := 1, key := 10, url := "/a", sameDocument := true, state := 1 }

def snapshotCE : Snapshot :=
  { current := some entryA
    previousEntries := [entryA]
    previousIndex := 0
    known := [entryA] }

def failedReplaceCore : Core :=
  { entries := [entryAClone], known := [entryA, entryAClone], currentIndex := 0 }

/-- Where the `#transition` protocol (lines 258-428) exits relative to the
in-protocol dispose sweep at line 356. -/
inductive ExitPath where
  | success
  | failBeforeSweep
  | failAfterSweep
deriving DecidableEq, Repr

/-- The known sets the exit-path sweeps draw from: the shared known set,
joined on the failure paths with the rollback snapshot's known set. -/
def exitPreKnown (path : ExitPath) (snap : Snapshot) (mutated : Core) :
    List Entry :=
  match path with
  | ExitPath.success => mutated.known
  | ExitPath.failBeforeSweep => jsSetUnion mutated.known snap.known
  | ExitPath.failAfterSweep => jsSetUnion mutated.known snap.known

/-- The internal navigation type: push/replace/traverse/reload are the
string-valued types; `updateCurrent`, `rollback` and `unset` model the
`UpdateCurrent`, `Rollback` and `Unset` symbols (navigation-transition.ts
lines 15-16 and the imports of app-history.ts line 22-28). -/
inductive NavType where
  | push
  | replace
  | traverse
  | reload
  | updateCurrent
  | rollback
  | unset
deriving DecidableEq, Repr

/-- The check `typeof navigationType === "string"`. -/
def NavType.isString : NavType → Bool
  | push | replace | traverse | reload => true
  | updateCurrent | rollback | unset => false

/-- Settlement state of a returned promise. -/
inductive PromiseState (α : Type) where
  | pending
  | resolved (value : α)
deriving DecidableEq, Repr

/-- The `{ committed, finished }` pair returned by `#commitTransition`. -/
structure CommitResult where
  committed : PromiseState Entry
  finished : PromiseState Entry
deriving DecidableEq, Repr

/-- Navigator state for the public operations: the shared core and the
abort controller of the transition currently mid-flight
(`#inProgressAbortController`; `none` before any transition starts, `some b`
with `b` its aborted flag). -/
structure Nav where
  core : Core
  inProgressAborted : Option Bool
deriving DecidableEq, Repr

/-- `#commitTransition` (lines 161-187): chain the new transition onto
`#activePromise`, then — unless the given navigation type is the
`UpdateCurrent` symbol (line 183) — signal abort on
`#inProgressAbortController`, and return the result pair, whose `committed`
member is `Promise.resolve(entry)` (line 186): a promise pre-resolved with
the target entry at acceptance time, while `finished` is still pending. -/
def commitTransition (navType : NavType) (entry : Entry) (n : Nav) :
    Nav × CommitResult :=
  let n1 :=
    if navType = NavType.updateCurrent then n
    else { n with inProgressAborted := n.inProgressAborted.map (fun _ => true) }
  (n1, { committed := PromiseState.resolved entry
         finished := PromiseState.pending })

/-- `#pushEntry` (lines 152-159): synchronous validation before the commit —
an entry that is (reference-)identical to the current entry, or whose id
already occurs in `#entries`, raises `InvalidStateError` at once; the
`Except.error` result carries no `CommitResult`, so the future pair is
never created on this path.  Reference identity is modelled as value
identity, faithful because ids are unique. -/
def pushEntry (navType : NavType) (entry : Entry) (n : Nav) :
    Except NavErr (Nav × CommitResult) :=
  if currentOf n.core = some entry then
    Except.error (NavErr.invalidState "")
  else if n.core.entries.any (fun ex => decide (ex.id = entry.id)) then
    Except.error (NavErr.invalidState "")
  else
    Except.ok (commitTransition navType entry n)

/-- `canGoBack` (lines 47-53). -/
def canGoBack (c : Core) : Bool :=
  if c.currentIndex = 0 then false
  else (jsIndex c.entries (c.currentIndex - 1)).isSome

/-- `canGoForward` (lines 55-64). -/
def canGoForward (c : Core) : Bool :=
  if c.currentIndex = -1 then false
  else if c.currentIndex = (c.entries.length : Int) - 1 then false
  else (jsIndex c.entries (c.currentIndex + 1)).isSome

/-- Modelled from the spec: fresh entry ids.  `AppHistoryEntry`
(`app-history-entry.ts` is not under src/) draws a globally unique id for
every entry it constructs — "id is unique across all entries ever created
by one Navigator instance" — modelled as one more than the largest id the
Navigator currently references. -/
def freshId (c : Core) : Nat :=
  ((c.entries ++ c.known).map Entry.id).foldr max 0 + 1

/-- Modelled from the spec: `#cloneAppHistoryEntry` (lines 125-139) builds a
new `AppHistoryEntry` (`app-history-entry.ts` is not under src/) keeping the
source entry's key, url, sameDocument flag and — unless the options carry a
state override — its state, under a fresh id. -/
def cloneEntry (fresh : Nat) (e : Entry) (stateOverride : Option Nat) : Entry :=
  { e with id := fresh, state := stateOverride.getD e.state }

/-- `back` (lines 77-84): `InvalidStateError("Cannot go back")` when
`canGoBack` is false, otherwise a traverse of the clone of the previous
entry. -/
def back (st : Option Nat) (n : Nav) : Except NavErr (Nav × CommitResult) :=
  if !canGoBack n.core then Except.error (NavErr.invalidState "Cannot go back")
  else
    let entry := (jsIndex n.core.entries (n.core.currentIndex - 1)).getD default
    pushEntry NavType.traverse (cloneEntry (freshId n.core) entry st) n

/-- `forward` (lines 90-97). -/
def forward (st : Option Nat) (n : Nav) : Except NavErr (Nav × CommitResult) :=
  if !canGoForward n.core then Except.error (NavErr.invalidState "")
  else
    let entry := (jsIndex n.core.entries (n.core.currentIndex + 1)).getD default
    pushEntry NavType.traverse (cloneEntry (freshId n.core) entry st) n

/-- `goTo` (lines 99-108): traverse of the clone of the first entry with the
given key, `InvalidStateError` when none exists. -/
def goTo (key : Nat) (st : Option Nat) (n : Nav) :
    Except NavErr (Nav × CommitResult) :=
  match n.core.entries.find? (fun e => decide (e.key = key)) with
  | some found => pushEntry NavType.traverse (cloneEntry (freshId n.core) found st) n
  | none => Except.error (NavErr.invalidState "")

/-- `reload` (lines 458-463): `InvalidStateError` when there is no current
entry, otherwise a reload of the clone of the current entry. -/
def reload (st : Option Nat) (n : Nav) : Except NavErr (Nav × CommitResult) :=
  match currentOf n.core with
  | none => Except.error (NavErr.invalidState "")
  | some cur => pushEntry NavType.reload (cloneEntry (freshId n.core) cur st) n

/-- `updateCurrent` (lines 465-471): clones the current entry (possibly
`undefined`: the clone of `undefined` is a fresh entry built from the
options, modelled from the spec because `app-history-entry.ts` is missing)
under the `UpdateCurrent` navigation type and pushes it. -/
def updateCurrent (st : Option Nat) (n : Nav) :
    Except NavErr (Nav × CommitResult) :=
  let entry :=
    match currentOf n.core with
    | some cur => cloneEntry (freshId n.core) cur st
    | none =>
      { id := freshId n.core, key := freshId n.core, url := "",
        sameDocument := true, state := st.getD 0 }
  pushEntry NavType.updateCurrent entry n

/-- Whether a fallible public operation raised `InvalidStateError`
synchronously (as a thrown exception, before any future pair exists). -/
def raisesInvalidState {α : Type} : Except NavErr α → Bool
  | Except.error (NavErr.invalidState _) => true
  | _ => false

/-- Concrete two-entry Navigator used by the C8 witness. -/
def navW : Nav :=
  ⟨⟨[⟨0, 10, "/a", true, 0⟩, ⟨1, 11, "/b", true, 0⟩],
    [⟨0, 10, "/a", true, 0⟩, ⟨1, 11, "/b", true, 0⟩], 1⟩, none⟩

/-- A caller-registered sub-operation (a promise passed to
`transitionWhile`): its children are the sub-operations it itself registers
while it is being awaited. -/
inductive SubOp where
  | node (label : Nat) (children : List SubOp)

def SubOp.label : SubOp → Nat
  | node l _ => l

def SubOp.children : SubOp → List SubOp
  | node _ cs => cs

/-- The sub-operations registered while a list of captured promises is
awaited: the concatenation of their children, in order. -/
def childrenList (ops : List SubOp) : List SubOp :=
  ops.foldr (fun op acc => op.children ++ acc) []

mutual

def SubOp.size : SubOp → Nat
  | .node _ cs => 1 + SubOp.sizeList cs

def SubOp.sizeList : List SubOp → Nat
  | [] => 0
  | x :: xs => SubOp.size x + SubOp.sizeList xs

end

/-- The observable events of the commit-and-finish protocol. -/
inductive ProtoEvent where
  | committedResolved
  | navigateFromEvent
  | navigateEvent
  | mutationApplied
  | currentChangeEvent
  | navigateToEvent
  | disposeSweepRun
  | subOpAwaited (label : Nat)
  | finishEvent
  | navigateSuccessEvent
  | finishedResolved
deriving DecidableEq, Repr

/-- Everything `completeTransition` does before it returns, for an accepted
string-typed, same-document navigation that succeeds (lines 285-389 of
app-history.ts): `committed` is `Promise.resolve(entry)` (line 186), so its
observers run at acceptance, before the chained body starts; the body then
dispatches `navigatefrom` (line 329) and `navigate` (line 336), applies the
entry-list mutation (lines 343-345), dispatches `currentchange` (line 348)
and `navigateto` (line 351), runs the dispose sweep (line 356), awaits the
sub-operations registered so far in one round (lines 360-364), dispatches
`finish` (line 367) and `navigatesuccess` (line 373) — both of which may
register more sub-operations — and finally awaits the promises list exactly
once more (lines 380-386).  `navRegs` are the sub-operations registered by
the navigate-phase events, `finishRegs` and `successRegs` those registered
by the `finish` and `navigatesuccess` listeners. -/
def completeFront (navRegs finishRegs successRegs : List SubOp) :
    List ProtoEvent :=
  ProtoEvent.committedResolved ::
    ProtoEvent.navigateFromEvent :: ProtoEvent.navigateEvent ::
    ProtoEvent.mutationApplied :: ProtoEvent.currentChangeEvent ::
    ProtoEvent.navigateToEvent :: ProtoEvent.disposeSweepRun ::
    (navRegs.map (fun op => ProtoEvent.subOpAwaited op.label) ++
      ProtoEvent.finishEvent :: ProtoEvent.navigateSuccessEvent ::
      (childrenList navRegs ++ finishRegs ++ successRegs).map
        (fun op => ProtoEvent.subOpAwaited op.label))

/-- The full timeline: `finished` resolves when `completeTransition`
returns, after everything in `completeFront`. -/
def completeTimeline (navRegs finishRegs successRegs : List SubOp) :
    List ProtoEvent :=
  completeFront navRegs finishRegs successRegs ++ [ProtoEvent.finishedResolved]

/-- `NavigationTransitionWait` (navigation-transition.ts lines 326-359),
success path: an empty promises set returns at once (the early return at
line 327 precedes the `try`, so no `finish` fires); otherwise the captured
promises are awaited, the settled ones removed, and if the set is pending
again — registrations made during the round — the wait recurses; each
call's `finally` runs `NavigationTransitionFinish` (lines 371-382), which
dispatches the `finish` event unless `IsFinished` is already set, so the
innermost recursive call fires it exactly once, after every round. -/
def waitDrainAux (pending : List SubOp) (isFinished : Bool) :
    List ProtoEvent × Bool :=
  if hp : pending.isEmpty then ([], isFinished)
  else
    let events := pending.map (fun op => ProtoEvent.subOpAwaited op.label)
    let next := childrenList pending
    let rec2 :=
      if hn : next.isEmpty then (([] : List ProtoEvent), isFinished)
      else waitDrainAux next isFinished
    if rec2.2 then (events ++ rec2.1, true)
    else (events ++ rec2.1 ++ [ProtoEvent.finishEvent], true)
termination_by SubOp.sizeList pending
decreasing_by
  have happ : ∀ a b : List SubOp,
      SubOp.sizeList (a ++ b) = SubOp.sizeList a + SubOp.sizeList b := by
    intro a b
    induction a with
    | nil => simp [SubOp.sizeList]
    | cons y ys ih =>
      show SubOp.size y + SubOp.sizeList (ys ++ b) =
        SubOp.size y + SubOp.sizeList ys + SubOp.sizeList b
      rw [ih]
      omega
  have h : ∀ l : List SubOp,
      SubOp.sizeList (childrenList l) + l.length = SubOp.sizeList l := by
    intro l
    induction l with
    | nil => rfl
    | cons x xs ih =>
      show SubOp.sizeList (x.children ++ childrenList xs) + (xs.length + 1) =
        SubOp.size x + SubOp.sizeList xs
      rw [happ]
      have hx : SubOp.size x = 1 + SubOp.sizeList x.children := by
        cases x with
        | node a cs => rfl
      omega
  have h2 := h pending
  have h1 : pending.length ≥ 1 := by
    cases pending with
    | nil => simp at hp
    | cons x xs => simp
  omega

/-- The event sequence of `NavigationTransitionWait` started on a pending
set that has not yet been finished. -/
def waitDrain (pending : List SubOp) : List ProtoEvent :=
  (waitDrainAux pending false).1

/-- The labels of every sub-operation transitively reachable from a pending
set: the sub-operations themselves and, recursively, everything the loop
will see once they are awaited. -/
def descendantLabels (pending : List SubOp) : List Nat :=
  if pending.isEmpty then []
  else pending.map SubOp.label ++ descendantLabels (childrenList pending)
termination_by SubOp.sizeList pending
decreasing_by
  have happ : ∀ a b : List SubOp,
      SubOp.sizeList (a ++ b) = SubOp.sizeList a + SubOp.sizeList b := by
    intro a b
    induction a with
    | nil => simp [SubOp.sizeList]
    | cons y ys ih =>
      show SubOp.size y + SubOp.sizeList (ys ++ b) =
        SubOp.size y + SubOp.sizeList ys + SubOp.sizeList b
      rw [ih]
      omega
  have h : ∀ l : List SubOp,
      SubOp.sizeList (childrenList l) + l.length = SubOp.sizeList l := by
    intro l
    induction l with
    | nil => rfl
    | cons x xs ih =>
      show SubOp.sizeList (x.children ++ childrenList xs) + (xs.length + 1) =
        SubOp.size x + SubOp.sizeList xs
      rw [happ]
      have hx : SubOp.size x = 1 + SubOp.sizeList x.children := by
        cases x with
        | node a cs => rfl
      omega
  have h2 := h pending
  have h1 : pending.length ≥ 1 := by
    cases pending with
    | nil => simp_all
    | cons x xs => simp
  omega

/-- Modelled from the spec: the error taxonomy of `navigation-errors.ts`
(not under src/) — invalid-operation errors, abort errors and application
errors; `isInvalidStateError` and `isAbortError` recognize the first two
classes as the imported classifiers do. -/
inductive ErrClass where
  | invalidStateErr (msg : String)
  | abortErr
  | appErr (code : Nat)
deriving DecidableEq, Repr

def isInvalidStateError : ErrClass → Bool
  | ErrClass.invalidStateErr _ => true
  | _ => false

def isAbortError : ErrClass → Bool
  | ErrClass.abortErr => true
  | _ => false

/-- The state of one `NavigationTransition`: its navigation type, the
`IsFinished` / `IsRejected` lifecycle flags, the abort controller's flag,
the `#rolledBack` latch of the `rollback` method, and the settle-once state
of the committed and finished deferreds. -/
structure TransitionState where
  navigationType : NavType
  isFinished : Bool
  isRejected : Bool
  aborted : Bool
  rolledBack : Bool
  committedSettled : Bool
  finishedSettled : Bool
deriving DecidableEq, Repr

/-- The observable steps of one `NavigationTransitionRejected` run. -/
inductive RejectEvent where
  | abortSignalled
  | navigateErrorEvent
  | rollbackInvoked
deriving DecidableEq, Repr

def failedRollbackMsg : String :=
  "Failed to rollback, please raise an issue at https://github.com/virtualstate/app-history/issues"

/-- `NavigationTransitionRejected` (navigation-transition.ts lines
268-306): a second rejection is a no-op; otherwise the transition is marked
rejected and aborted (`NavigationTransitionAbort`, lines 361-369, aborts
once and dispatches the abort event, whose listener reenters this function
and returns at once because the rejected flag is already set); for a
string-typed or Rollback transition the `navigateerror` event is dispatched
FIRST (line 279), and only then — unless the type is Rollback or the
reason is an invalid-state or abort class error (line 291) — the captured
rollback callback is invoked; a rollback failure (its finished promise
rejecting, or the `rollback` method's own multiple-invocation throw, lines
223-231) is caught and escalated as
`InvalidStateError("Failed to rollback, ...")` (line 300), skipping the
final settlement of the two deferreds.  `rollbackFails` abstracts the
rollback outcome. -/
def navigationTransitionRejected (s : TransitionState) (reason : ErrClass)
    (rollbackFails : Bool) :
    Except NavErr (TransitionState × List RejectEvent) :=
  if s.isRejected then Except.ok (s, [])
  else
    let s1 : TransitionState := { s with isRejected := true }
    let abortStep : TransitionState × List RejectEvent :=
      if s1.aborted then (s1, [])
      else ({ s1 with aborted := true }, [RejectEvent.abortSignalled])
    let s2 := abortStep.1
    let ev1 := abortStep.2
    if s.navigationType.isString || decide (s.navigationType = NavType.rollback) then
      let ev2 := ev1 ++ [RejectEvent.navigateErrorEvent]
      if decide (s.navigationType = NavType.rollback) ||
          isInvalidStateError reason || isAbortError reason then
        Except.ok ({ s2 with committedSettled := true, finishedSettled := true }, ev2)
      else if s2.rolledBack || rollbackFails then
        Except.error (NavErr.invalidState failedRollbackMsg)
      else
        let s3 : TransitionState :=
          { s2 with rolledBack := true, committedSettled := true, finishedSettled := true }
        Except.ok (s3, ev2 ++ [RejectEvent.rollbackInvoked])
    else
      Except.ok ({ s2 with committedSettled := true, finishedSettled := true }, ev1)

/-- The local `transitionWhile` of `#transition` (app-history.ts lines
430-435): after the transition's abort controller has fired it throws
`InvalidStateError("Event has already finished processing")`; otherwise it
pushes the new action onto the promises list. -/
def transitionWhile (aborted : Bool) (promises : List Nat) (p : Nat) :
    Except NavErr (List Nat) :=
  if aborted then
    Except.error (NavErr.invalidState "Event has already finished processing")
  else Except.ok (promises ++ [p])

/-- The per-transition registration state used by
`NavigationTransitionWhile`: the `IsOngoing` flag and the promises set. -/
structure WhileState where
  isOngoing : Bool
  promises : List Nat
deriving DecidableEq, Repr

/-- `NavigationTransitionWhile` (navigation-transition.ts lines 308-324):
sets `IsOngoing` and adds the wrapped status promise to the promises set —
without consulting the abort signal (`aborted` is ignored). -/
def navigationTransitionWhile (aborted : Bool) (s : WhileState) (p : Nat) :
    WhileState :=
  { isOngoing := true, promises := s.promises ++ [p] }

/-- A store of JS array objects, making aliasing explicit: a reference is
an index into the store. -/
structure ArrayHeap where
  arrays : List (List Entry)
deriving DecidableEq, Repr

def ArrayHeap.get (h : ArrayHeap) (r : Nat) : List Entry :=
  (h.arrays[r]?).getD []

/-- A spread `[...xs]` allocates a fresh array object holding a copy of the
contents and returns its reference. -/
def ArrayHeap.alloc (h : ArrayHeap) (v : List Entry) : ArrayHeap × Nat :=
  (⟨h.arrays ++ [v]⟩, h.arrays.length)

/-- An arbitrary caller mutation of an array object: overwrite its contents
(covering the outcomes of push/pop/splice/index assignment). -/
def ArrayHeap.write (h : ArrayHeap) (r : Nat) (v : List Entry) : ArrayHeap :=
  ⟨h.arrays.set r v⟩

/-- Navigator state with its `#entries` array held by reference. -/
structure NavHeap where
  heap : ArrayHeap
  entriesRef : Nat
  currentIndex : Int
  known : List Entry
deriving DecidableEq, Repr

/-- `entries()` (app-history.ts lines 86-88): `return [...this.#entries]` —
allocate a fresh array holding a copy of the entry sequence and return its
reference; no Navigator field is written. -/
def entriesOp (s : NavHeap) : NavHeap × Nat :=
  let r := s.heap.alloc (s.heap.get s.entriesRef)
  ({ s with heap := r.1 }, r.2)

/-- Concrete one-array heap Navigator used by the C10 witness. -/
def navHeapW : NavHeap :=
  ⟨⟨[[⟨0, 10, "/a", true, 0⟩]]⟩, 0, 0, [⟨0, 10, "/a", true, 0⟩]⟩

theorem mem_jsSetUnion (a b : List Entry) (e : Entry) :
    e ∈ jsSetUnion a b ↔ e ∈ a ∨ e ∈ b := by
  simp only [jsSetUnion, List.mem_append, List.mem_filter, decide_eq_true_eq]
  constructor
  · rintro (h | ⟨h, _⟩)
    · exact Or.inl h
    · exact Or.inr h
  · intro h
    by_cases ha : e ∈ a
    · exact Or.inl ha
    · rcases h with h | h
      · exact absurd h ha
      · exact Or.inr ⟨h, ha⟩

theorem nodup_jsSetUnion (a b : List Entry) (ha : a.Nodup) (hb : b.Nodup) :
    (jsSetUnion a b).Nodup := by
  refine List.Nodup.append ha (hb.filter _) ?_
  intro e hea heb
  rcases List.mem_filter.mp heb with ⟨_, hdec⟩
  exact (decide_eq_true_eq.mp hdec) hea

/-- C1: at every point in any serialized execution of the public operations,
the defensive in-flight counter is at most 1 and the
`InvalidStateError("Unexpected multiple transitions")` branch is never
taken; the counter returns to 0 after every chained call. -/
theorem immediateTransition_count_le_one
    (bodies : List (Core → Option NavErr × Core)) (s : NavCount)
    (h : s.transitionInProgressCount = 0) :
    (runChain bodies s).1.transitionInProgressCount = 0 ∧
    ∀ pb ∈ (runChain bodies s).2, pb.1 ≤ 1 ∧ pb.2 = false := by
  induction bodies generalizing s with
  | nil => exact ⟨h, by intro pb hpb; simp [runChain] at hpb⟩
  | cons b rest ih =>
    have hstep : (immediateTransition b s).state.transitionInProgressCount = 0 ∧
        (immediateTransition b s).peakCount = 1 ∧
        (immediateTransition b s).multipleTransitionsTripped = false := by
      simp [immediateTransition, h]
    obtain ⟨h0, hpeak, htrip⟩ := hstep
    obtain ⟨hfin, hall⟩ := ih (immediateTransition b s).state h0
    refine ⟨by simpa [runChain] using hfin, ?_⟩
    intro pb hpb
    simp only [runChain, List.mem_cons] at hpb
    rcases hpb with hpb | hpb
    · subst hpb; exact ⟨by omega, htrip⟩
    · exact hall pb hpb

/-- Witness for C1 on a concrete two-transition chain from the empty
Navigator. -/
theorem immediateTransition_count_le_one_witness :
    (runChain [fun c => (none, c), fun c => (some (NavErr.appError 7), c)]
        ⟨⟨[], [], -1⟩, 0⟩).1.transitionInProgressCount = 0 ∧
    ∀ pb ∈ (runChain [fun c => (none, c), fun c => (some (NavErr.appError 7), c)]
        ⟨⟨[], [], -1⟩, 0⟩).2, pb.1 ≤ 1 ∧ pb.2 = false :=
  immediateTransition_count_le_one _ _ rfl

theorem disposeSweep_eq_filter (entries known : List Entry) :
    disposeSweep entries known =
      (known.filter (fun k => reachable entries k),
       known.filter (fun k => !reachable entries k)) := by
  induction known with
  | nil => rfl
  | cons k rest ih =>
    by_cases h : reachable entries k = true
    · simp [disposeSweep, ih, h]
    · simp only [Bool.not_eq_true] at h
      simp [disposeSweep, ih, h]

/-- Counterexample to C2: after a failing replace transition invokes its
captured rollback, `#known` is not restored to the snapshot `[entryA]` —
the replacement clone stays known (the Set union of lines 290/343 keeps it,
and the dispose sweep cannot prune it because it shares the restored
entry's key), even though `entries` and `currentIndex` are restored. -/
theorem rollback_known_union_counterexample :
    (rollbackInvocation snapshotCE failedReplaceCore).1.entries = snapshotCE.previousEntries ∧
    (rollbackInvocation snapshotCE failedReplaceCore).1.currentIndex = snapshotCE.previousIndex ∧
    entryAClone ∈ (rollbackInvocation snapshotCE failedReplaceCore).1.known ∧
    entryAClone ∉ snapshotCE.known ∧
    (rollbackInvocation snapshotCE failedReplaceCore).1.known ≠ snapshotCE.known := by
  decide

/-- C2 as amended: an invoked rollback restores `entries` and `currentIndex`
exactly to the snapshot, but sets `known` to the union of the current known
set and the snapshot, pruned by the dispose sweep of every entry whose key
is absent from the restored entries — a superset of the snapshot's
still-reachable entries, not the exact snapshot. -/
theorem rollbackInvocation_restores (snap : Snapshot) (c : Core) :
    (rollbackInvocation snap c).1.entries = snap.previousEntries ∧
    (rollbackInvocation snap c).1.currentIndex = snap.previousIndex ∧
    ∀ e, e ∈ (rollbackInvocation snap c).1.known ↔
      ((e ∈ c.known ∨ e ∈ snap.known) ∧ reachable snap.previousEntries e = true) := by
  cases hcur : snap.current with
  | none =>
    refine ⟨by simp [rollbackInvocation, hcur], by simp [rollbackInvocation, hcur], ?_⟩
    intro e
    simp only [rollbackInvocation, hcur, disposeSweep_eq_filter, List.mem_filter]
    rw [mem_jsSetUnion]
  | some cur =>
    refine ⟨by simp [rollbackInvocation, hcur, createTransitionRollbackResult],
            by simp [rollbackInvocation, hcur, createTransitionRollbackResult], ?_⟩
    intro e
    simp only [rollbackInvocation, hcur, createTransitionRollbackResult,
      disposeSweep_eq_filter, List.filter_filter, List.mem_filter, Bool.and_self]
    rw [mem_jsSetUnion]

theorem exitPreKnown_nodup (path : ExitPath) (snap : Snapshot) (mutated : Core)
    (h1 : mutated.known.Nodup) (h2 : snap.known.Nodup) :
    (exitPreKnown path snap mutated).Nodup := by
  cases path with
  | success => exact h1
  | failBeforeSweep => exact nodup_jsSetUnion _ _ h1 h2
  | failAfterSweep => exact nodup_jsSetUnion _ _ h1 h2

theorem le_foldr_max (l : List Nat) (x : Nat) (hx : x ∈ l) :
    x ≤ l.foldr max 0 := by
  induction l with
  | nil => cases hx
  | cons a t ih =>
    show x ≤ max a (t.foldr max 0)
    rcases List.mem_cons.mp hx with h | h
    · subst h; exact le_max_left _ _
    · exact le_trans (ih h) (le_max_right _ _)

theorem freshId_ne_entries (c : Core) : ∀ e ∈ c.entries, e.id ≠ freshId c := by
  intro e he
  have hmem : e.id ∈ (c.entries ++ c.known).map Entry.id :=
    List.mem_map_of_mem _ (List.mem_append_left _ he)
  have hle := le_foldr_max _ _ hmem
  unfold freshId
  omega

/-- C4: accepting any request whose navigation kind is not the
update-in-place symbol immediately signals abort on the abort controller of
the transition currently mid-flight (if any); a request of the
update-in-place kind — in particular every `updateCurrent` call — never
signals abort. -/
theorem commitTransition_abort_policy (navType : NavType) (entry : Entry)
    (n : Nav) (st : Option Nat) :
    (navType ≠ NavType.updateCurrent →
      (commitTransition navType entry n).1.inProgressAborted =
        n.inProgressAborted.map (fun _ => true)) ∧
    (navType = NavType.updateCurrent →
      (commitTransition navType entry n).1.inProgressAborted =
        n.inProgressAborted) ∧
    (∀ r, updateCurrent st n = Except.ok r →
      r.1.inProgressAborted = n.inProgressAborted) := by
  refine ⟨?_, ?_, ?_⟩
  · intro h
    simp [commitTransition, h]
  · intro h
    simp [commitTransition, h]
  · intro r hr
    simp only [updateCurrent, pushEntry] at hr
    split at hr
    · cases hr
    · split at hr
      · cases hr
      · cases hr
        simp [commitTransition]

/-- Witness for C4: a push accepted while a transition is mid-flight aborts
its controller; an updateCurrent over the same state does not. -/
theorem commitTransition_abort_policy_witness :
    (NavType.push ≠ NavType.updateCurrent →
      (commitTransition NavType.push default
        ⟨⟨[⟨0, 10, "/a", true, 0⟩], [⟨0, 10, "/a", true, 0⟩], 0⟩, some false⟩).1.inProgressAborted =
        (some false).map (fun _ => true)) ∧
    (NavType.push = NavType.updateCurrent →
      (commitTransition NavType.push default
        ⟨⟨[⟨0, 10, "/a", true, 0⟩], [⟨0, 10, "/a", true, 0⟩], 0⟩, some false⟩).1.inProgressAborted =
        some false) ∧
    (∀ r, updateCurrent (some 3)
        ⟨⟨[⟨0, 10, "/a", true, 0⟩], [⟨0, 10, "/a", true, 0⟩], 0⟩, some false⟩ = Except.ok r →
      r.1.inProgressAborted = some false) :=
  commitTransition_abort_policy NavType.push default
    ⟨⟨[⟨0, 10, "/a", true, 0⟩], [⟨0, 10, "/a", true, 0⟩], 0⟩, some false⟩ (some 3)

theorem currentOf_mem (c : Core) (e : Entry) (h : currentOf c = some e) :
    e ∈ c.entries := by
  unfold currentOf at h
  split at h
  · cases h
  · unfold jsIndex at h
    split at h
    · exact List.get?_mem h
    · cases h

theorem pushEntry_ok_of_fresh (navType : NavType) (entry : Entry) (n : Nav)
    (hid : ∀ e ∈ n.core.entries, e.id ≠ entry.id) :
    pushEntry navType entry n = Except.ok (commitTransition navType entry n) := by
  have h1 : ¬currentOf n.core = some entry := by
    intro hc
    exact hid entry (currentOf_mem _ _ hc) rfl
  have h2 : n.core.entries.any (fun ex => decide (ex.id = entry.id)) = false := by
    rw [List.any_eq_false]
    intro ex hex
    simp [hid ex hex]
  simp [pushEntry, h1, h2]

/-- C8: back, forward, goTo and reload raise `InvalidStateError`
synchronously — the error result carries no future pair — exactly when
their precondition fails (no adjacent entry in that direction, no entry
with the given key, no current entry); and `#pushEntry` raises
`InvalidStateError` synchronously whenever the pushed or replaced entry's
id already occurs in the entry sequence. -/
theorem sync_validation_policy (n : Nav) (key : Nat) (st : Option Nat)
    (navType : NavType) (entry : Entry) :
    raisesInvalidState (back st n) = !canGoBack n.core ∧
    raisesInvalidState (forward st n) = !canGoForward n.core ∧
    raisesInvalidState (goTo key st n) =
      !(n.core.entries.any (fun e => decide (e.key = key))) ∧
    raisesInvalidState (reload st n) = (currentOf n.core).isNone ∧
    (n.core.entries.any (fun ex => decide (ex.id = entry.id)) = true →
      raisesInvalidState (pushEntry navType entry n) = true) := by
  refine ⟨?_, ?_, ?_, ?_, ?_⟩
  · cases hgb : canGoBack n.core with
    | false => simp [back, hgb, raisesInvalidState]
    | true =>
      have hok := pushEntry_ok_of_fresh NavType.traverse
        (cloneEntry (freshId n.core)
          ((jsIndex n.core.entries (n.core.currentIndex - 1)).getD default) st) n
        (fun e he => by simpa [cloneEntry] using freshId_ne_entries n.core e he)
      simp [back, hgb, hok, raisesInvalidState]
  · cases hgf : canGoForward n.core with
    | false => simp [forward, hgf, raisesInvalidState]
    | true =>
      have hok := pushEntry_ok_of_fresh NavType.traverse
        (cloneEntry (freshId n.core)
          ((jsIndex n.core.entries (n.core.currentIndex + 1)).getD default) st) n
        (fun e he => by simpa [cloneEntry] using freshId_ne_entries n.core e he)
      simp [forward, hgf, hok, raisesInvalidState]
  · cases hfind : n.core.entries.find? (fun e => decide (e.key = key)) with
    | none =>
      have hany : n.core.entries.any (fun e => decide (e.key = key)) = false := by
        rw [List.any_eq_false]
        intro x hx
        have := List.find?_eq_none.mp hfind x hx
        simpa using this
      simp [goTo, hfind, hany, raisesInvalidState]
    | some found =>
      have hmem : found ∈ n.core.entries := List.mem_of_find?_eq_some hfind
      have hp : decide (found.key = key) = true := by
        have hq := List.find?_some hfind
        simpa using hq
      have hany : n.core.entries.any (fun e => decide (e.key = key)) = true :=
        List.any_eq_true.mpr ⟨found, hmem, hp⟩
      have hok := pushEntry_ok_of_fresh NavType.traverse
        (cloneEntry (freshId n.core) found st) n
        (fun e he => by simpa [cloneEntry] using freshId_ne_entries n.core e he)
      simp [goTo, hfind, hany, hok, raisesInvalidState]
  · cases hc : currentOf n.core with
    | none => simp [reload, hc, raisesInvalidState]
    | some cur =>
      have hok := pushEntry_ok_of_fresh NavType.reload
        (cloneEntry (freshId n.core) cur st) n
        (fun e he => by simpa [cloneEntry] using freshId_ne_entries n.core e he)
      simp [reload, hc, hok, raisesInvalidState]
  · intro h
    unfold pushEntry
    split
    · rfl
    · simp [h, raisesInvalidState]

/-- Witness for C8 on a concrete two-entry Navigator positioned at index 1:
back succeeds, forward fails, no entry has key 99, reload succeeds, and
pushing an entry with the existing id 0 fails. -/
theorem sync_validation_policy_witness :
    raisesInvalidState (back none navW) = !canGoBack navW.core ∧
    raisesInvalidState (forward none navW) = !canGoForward navW.core ∧
    raisesInvalidState (goTo 99 none navW) =
      !(navW.core.entries.any (fun e => decide (e.key = 99))) ∧
    raisesInvalidState (reload none navW) = (currentOf navW.core).isNone ∧
    (navW.core.entries.any (fun ex => decide (ex.id = (⟨0, 10, "/a", true, 0⟩ : Entry).id)) = true →
      raisesInvalidState (pushEntry NavType.push ⟨0, 10, "/a", true, 0⟩ navW) = true) :=
  sync_validation_policy navW 99 none NavType.push ⟨0, 10, "/a", true, 0⟩

theorem sizeList_append (a b : List SubOp) :
    SubOp.sizeList (a ++ b) = SubOp.sizeList a + SubOp.sizeList b := by
  induction a with
  | nil => simp [SubOp.sizeList]
  | cons x xs ih =>
    show SubOp.size x + SubOp.sizeList (xs ++ b) = _
    rw [ih]
    show _ = SubOp.size x + SubOp.sizeList xs + SubOp.sizeList b
    omega

theorem sizeList_childrenList (l : List SubOp) :
    SubOp.sizeList (childrenList l) + l.length = SubOp.sizeList l := by
  induction l with
  | nil => rfl
  | cons x xs ih =>
    show SubOp.sizeList (x.children ++ childrenList xs) + (xs.length + 1) =
      SubOp.size x + SubOp.sizeList xs
    rw [sizeList_append]
    have hx : SubOp.size x = 1 + SubOp.sizeList x.children := by
      cases x with
      | node l cs => rfl
    omega

theorem one_le_sizeList (l : List SubOp) (h : l.isEmpty = false) :
    1 ≤ SubOp.sizeList l := by
  cases l with
  | nil => cases h
  | cons x xs =>
    have hx : SubOp.size x = 1 + SubOp.sizeList x.children := by
      cases x with
      | node a cs => rfl
    show 1 ≤ SubOp.size x + SubOp.sizeList xs
    omega

/-- Counterexample to C3: the `committed` member of the returned pair is
`Promise.resolve(entry)` (line 186), so it resolves at acceptance — before
the transition's entry-list mutation and its `currentchange` delivery —
shown here both on the result of `#commitTransition` itself and on the
timeline of a navigation with no registered sub-operations. -/
theorem committed_resolves_before_mutation :
    (commitTransition NavType.push ⟨3, 30, "/c", true, 0⟩
        ⟨⟨[], [], -1⟩, none⟩).2.committed =
      PromiseState.resolved ⟨3, 30, "/c", true, 0⟩ ∧
    (completeTimeline [] [] []).indexOf ProtoEvent.committedResolved <
      (completeTimeline [] [] []).indexOf ProtoEvent.mutationApplied ∧
    (completeTimeline [] [] []).indexOf ProtoEvent.committedResolved <
      (completeTimeline [] [] []).indexOf ProtoEvent.currentChangeEvent ∧
    ProtoEvent.committedResolved ∈ completeTimeline [] [] [] ∧
    ProtoEvent.mutationApplied ∈ completeTimeline [] [] [] ∧
    ProtoEvent.currentChangeEvent ∈ completeTimeline [] [] [] := by
  decide

/-- C3 as amended: `committed` is pre-resolved at acceptance — it is the
first point of the timeline, before the mutation — while `finished`
resolves last, strictly after the entry-list mutation, the event
deliveries, and both rounds of awaiting caller-registered sub-operations
(the registrations of the navigate-phase, finish and navigatesuccess
listeners, and the registrations the first round's sub-operations make
while awaited). -/
theorem completeTimeline_committed_first_finished_last
    (a b c : List SubOp) :
    (completeTimeline a b c).head? = some ProtoEvent.committedResolved ∧
    ∃ front, completeTimeline a b c = front ++ [ProtoEvent.finishedResolved] ∧
      ProtoEvent.finishedResolved ∉ front ∧
      ProtoEvent.mutationApplied ∈ front ∧
      ProtoEvent.currentChangeEvent ∈ front ∧
      (∀ op, op ∈ a ++ (childrenList a ++ b ++ c) →
        ProtoEvent.subOpAwaited op.label ∈ front) := by
  refine ⟨rfl, completeFront a b c, rfl, ?_, ?_, ?_, ?_⟩
  · intro hmem
    simp only [completeFront, List.mem_cons, List.mem_append, List.mem_map] at hmem
    rcases hmem with h | h | h | h | h | h | h | (⟨op, _, h⟩ | h | h | ⟨op, _, h⟩) <;>
      cases h
  · simp [completeFront]
  · simp [completeFront]
  · intro op hop
    rcases List.mem_append.mp hop with h | h
    · simp only [completeFront, List.mem_cons, List.mem_append, List.mem_map]
      exact Or.inr (Or.inr (Or.inr (Or.inr (Or.inr (Or.inr (Or.inr
        (Or.inl ⟨op, h, rfl⟩)))))))
    · simp only [completeFront, List.mem_cons, List.mem_append, List.mem_map]
      refine Or.inr (Or.inr (Or.inr (Or.inr (Or.inr (Or.inr (Or.inr
        (Or.inr (Or.inr (Or.inr ⟨op, ?_, rfl⟩)))))))))
      rcases List.mem_append.mp h with h | h
      · exact Or.inl (List.mem_append.mp h)
      · exact Or.inr h

/-- Witness for C3 on a one-sub-operation timeline. -/
theorem completeTimeline_committed_first_finished_last_witness :
    (completeTimeline [SubOp.node 1 []] [] []).head? =
      some ProtoEvent.committedResolved ∧
    ∃ front, completeTimeline [SubOp.node 1 []] [] [] =
        front ++ [ProtoEvent.finishedResolved] ∧
      ProtoEvent.finishedResolved ∉ front ∧
      ProtoEvent.mutationApplied ∈ front ∧
      ProtoEvent.currentChangeEvent ∈ front ∧
      (∀ op, op ∈ [SubOp.node 1 []] ++ (childrenList [SubOp.node 1 []] ++ [] ++ []) →
        ProtoEvent.subOpAwaited op.label ∈ front) :=
  completeTimeline_committed_first_finished_last [SubOp.node 1 []] [] []

/-- Counterexample to C5: with one navigate-phase sub-operation (label 1)
that registers a further sub-operation (label 2) while first awaited, the
`finish` event is dispatched before the nested sub-operation is awaited;
and a third-level sub-operation (label 3, registered during the second
round) is never awaited at all even though `finished` resolves:
`completeTransition` drains in exactly two rounds with `finish` between
them — it does not loop until no new registrations appear. -/
theorem finish_event_before_nested_subop :
    ((completeTimeline [SubOp.node 1 [SubOp.node 2 []]] [] []).indexOf
        ProtoEvent.finishEvent <
      (completeTimeline [SubOp.node 1 [SubOp.node 2 []]] [] []).indexOf
        (ProtoEvent.subOpAwaited 2)) ∧
    ProtoEvent.finishEvent ∈ completeTimeline [SubOp.node 1 [SubOp.node 2 []]] [] [] ∧
    ProtoEvent.subOpAwaited 2 ∈ completeTimeline [SubOp.node 1 [SubOp.node 2 []]] [] [] ∧
    ProtoEvent.subOpAwaited 3 ∉
      completeTimeline [SubOp.node 1 [SubOp.node 2 [SubOp.node 3 []]]] [] [] ∧
    ProtoEvent.finishedResolved ∈
      completeTimeline [SubOp.node 1 [SubOp.node 2 [SubOp.node 3 []]]] [] [] := by
  decide

theorem waitDrainAux_spec :
    ∀ sz (pending : List SubOp), SubOp.sizeList pending ≤ sz →
      pending.isEmpty = false →
      ∃ front, waitDrainAux pending false = (front ++ [ProtoEvent.finishEvent], true) ∧
        ProtoEvent.finishEvent ∉ front ∧
        ∀ n, n ∈ descendantLabels pending → ProtoEvent.subOpAwaited n ∈ front := by
  intro sz
  induction sz with
  | zero =>
    intro pending hle he
    have := one_le_sizeList pending he
    omega
  | succ k ih =>
    intro pending hle he
    have hp : ¬pending.isEmpty = true := by simp [he]
    by_cases hn : (childrenList pending).isEmpty = true
    · refine ⟨pending.map (fun op => ProtoEvent.subOpAwaited op.label), ?_, ?_, ?_⟩
      · rw [waitDrainAux]
        rw [dif_neg hp]
        simp [hn]
      · intro hmem
        rcases List.mem_map.mp hmem with ⟨op, _, hop⟩
        cases hop
      · intro n hm
        rw [descendantLabels] at hm
        rw [if_neg hp] at hm
        rw [descendantLabels] at hm
        rw [if_pos hn] at hm
        rcases List.mem_append.mp hm with hm | hm
        · rcases List.mem_map.mp hm with ⟨op, hop, rfl⟩
          exact List.mem_map.mpr ⟨op, hop, rfl⟩
        · cases hm
    · have hsz : SubOp.sizeList (childrenList pending) ≤ k := by
        have hcl := sizeList_childrenList pending
        have h1 : pending.length ≥ 1 := by
          cases pending with
          | nil => cases he
          | cons x xs => simp
        omega
      obtain ⟨front, heq, hnot, hall⟩ :=
        ih (childrenList pending) hsz (by simpa using hn)
      refine ⟨pending.map (fun op => ProtoEvent.subOpAwaited op.label) ++ front, ?_, ?_, ?_⟩
      · rw [waitDrainAux]
        rw [dif_neg hp]
        simp [hn, heq, List.append_assoc]
      · intro hmem
        rcases List.mem_append.mp hmem with hm | hm
        · rcases List.mem_map.mp hm with ⟨op, _, hop⟩
          cases hop
        · exact hnot hm
      · intro n hm
        rw [descendantLabels] at hm
        rw [if_neg hp] at hm
        rcases List.mem_append.mp hm with hm | hm
        · rcases List.mem_map.mp hm with ⟨op, hop, rfl⟩
          exact List.mem_append.mpr (Or.inl (List.mem_map.mpr ⟨op, hop, rfl⟩))
        · exact List.mem_append.mpr (Or.inr (hall n hm))

/-- C5 as amended: `NavigationTransitionWait` — unlike the two-round drain
of `completeTransition` — awaits every caller-registered sub-operation,
looping until no new registrations appear (registrations made by
registrations included), and only then dispatches the `finish` event, which
is the unique last event of its run. -/
theorem waitDrain_awaits_all_before_finish (pending : List SubOp)
    (h : pending.isEmpty = false) :
    ∃ front, waitDrain pending = front ++ [ProtoEvent.finishEvent] ∧
      ProtoEvent.finishEvent ∉ front ∧
      ∀ n, n ∈ descendantLabels pending → ProtoEvent.subOpAwaited n ∈ front := by
  obtain ⟨front, heq, hnot, hall⟩ :=
    waitDrainAux_spec (SubOp.sizeList pending) pending le_rfl h
  exact ⟨front, by rw [waitDrain, heq], hnot, hall⟩

/-- Witness for C5 on a nested two-level pending set. -/
theorem waitDrain_awaits_all_before_finish_witness :
    ∃ front, waitDrain [SubOp.node 1 [SubOp.node 2 []]] =
        front ++ [ProtoEvent.finishEvent] ∧
      ProtoEvent.finishEvent ∉ front ∧
      ∀ n, n ∈ descendantLabels [SubOp.node 1 [SubOp.node 2 []]] →
        ProtoEvent.subOpAwaited n ∈ front :=
  waitDrain_awaits_all_before_finish [SubOp.node 1 [SubOp.node 2 []]] rfl

/-- Counterexample to C6: for a fresh push transition rejected by an
application error whose rollback succeeds, `NavigationTransitionRejected`
emits `navigateerror` BEFORE invoking the captured rollback callback — not
after it as the claim states. -/
theorem navigateerror_before_rollback_counterexample :
    navigationTransitionRejected
        ⟨NavType.push, false, false, false, false, false, false⟩
        (ErrClass.appErr 0) false =
      Except.ok (⟨NavType.push, false, true, true, true, true, true⟩,
        [RejectEvent.abortSignalled, RejectEvent.navigateErrorEvent,
          RejectEvent.rollbackInvoked]) ∧
    [RejectEvent.abortSignalled, RejectEvent.navigateErrorEvent,
        RejectEvent.rollbackInvoked].indexOf RejectEvent.navigateErrorEvent <
      [RejectEvent.abortSignalled, RejectEvent.navigateErrorEvent,
        RejectEvent.rollbackInvoked].indexOf RejectEvent.rollbackInvoked :=
  ⟨rfl, by decide⟩

/-- C6 as amended: a rejection of an already-terminal (already rejected)
transition is a no-op — no rollback, no error event; otherwise, for a
string-typed or rollback-kind transition the `navigateerror` notification
is emitted FIRST and the captured rollback callback is invoked only after
it, and only when the kind is not rollback and the error is neither an
invalid-state nor an abort class error; a rollback failure is escalated to
the fatal `InvalidStateError("Failed to rollback, ...")`. -/
theorem navigationTransitionRejected_policy (s : TransitionState)
    (reason : ErrClass) (fails : Bool) :
    (s.isRejected = true →
      navigationTransitionRejected s reason fails = Except.ok (s, [])) ∧
    (∀ out evs, navigationTransitionRejected s reason fails = Except.ok (out, evs) →
      RejectEvent.rollbackInvoked ∈ evs →
      evs.indexOf RejectEvent.navigateErrorEvent <
        evs.indexOf RejectEvent.rollbackInvoked) ∧
    (s.isRejected = false → s.navigationType.isString = true →
      isInvalidStateError reason = false → isAbortError reason = false →
      s.rolledBack = false → fails = false →
      ∃ out evs, navigationTransitionRejected s reason fails = Except.ok (out, evs) ∧
        RejectEvent.navigateErrorEvent ∈ evs ∧
        RejectEvent.rollbackInvoked ∈ evs ∧ out.rolledBack = true) ∧
    (s.isRejected = false → s.navigationType.isString = true →
      isInvalidStateError reason = false → isAbortError reason = false →
      (s.rolledBack = true ∨ fails = true) →
      navigationTransitionRejected s reason fails =
        Except.error (NavErr.invalidState failedRollbackMsg)) ∧
    (∀ out evs, navigationTransitionRejected s reason fails = Except.ok (out, evs) →
      (isInvalidStateError reason = true ∨ isAbortError reason = true ∨
        s.navigationType = NavType.rollback ∨ s.isRejected = true) →
      RejectEvent.rollbackInvoked ∉ evs) := by
  refine ⟨?_, ?_, ?_, ?_, ?_⟩
  · intro h
    simp [navigationTransitionRejected, h]
  · intro out evs heq hmem
    simp only [navigationTransitionRejected] at heq
    split at heq
    · simp only [Except.ok.injEq, Prod.mk.injEq] at heq
      rw [← heq.2] at hmem
      simp at hmem
    · split at heq
      · split at heq
        · simp only [Except.ok.injEq, Prod.mk.injEq] at heq
          rw [← heq.2] at hmem
          split at hmem <;> simp at hmem
        · split at heq <;> split at heq
          · exact Except.noConfusion heq
          · simp only [Except.ok.injEq, Prod.mk.injEq] at heq
            rw [← heq.2]
            decide
          · exact Except.noConfusion heq
          · simp only [Except.ok.injEq, Prod.mk.injEq] at heq
            rw [← heq.2]
            decide
      · simp only [Except.ok.injEq, Prod.mk.injEq] at heq
        rw [← heq.2] at hmem
        split at hmem <;> simp at hmem
  · intro hrj hstr hinv habt hrb hf
    have hne : s.navigationType ≠ NavType.rollback := by
      intro h
      rw [h] at hstr
      cases hstr
    cases hab : s.aborted with
    | true =>
      refine ⟨⟨s.navigationType, s.isFinished, true, true, true, true, true⟩,
        [RejectEvent.navigateErrorEvent, RejectEvent.rollbackInvoked],
        ?_, by decide, by decide, rfl⟩
      simp [navigationTransitionRejected, hrj, hstr, hne, hinv, habt, hrb, hf, hab]
    | false =>
      refine ⟨⟨s.navigationType, s.isFinished, true, true, true, true, true⟩,
        [RejectEvent.abortSignalled, RejectEvent.navigateErrorEvent,
          RejectEvent.rollbackInvoked],
        ?_, by decide, by decide, rfl⟩
      simp [navigationTransitionRejected, hrj, hstr, hne, hinv, habt, hrb, hf, hab]
  · intro hrj hstr hinv habt hrbf
    have hne : s.navigationType ≠ NavType.rollback := by
      intro h
      rw [h] at hstr
      cases hstr
    rcases hrbf with hrb | hf
    · cases hab : s.aborted <;>
        simp [navigationTransitionRejected, hrj, hstr, hne, hinv, habt, hrb, hab]
    · cases hab : s.aborted <;>
        simp [navigationTransitionRejected, hrj, hstr, hne, hinv, habt, hf, hab]
  · intro out evs heq hcls
    simp only [navigationTransitionRejected] at heq
    split at heq
    · rename_i hrj
      simp only [Except.ok.injEq, Prod.mk.injEq] at heq
      rw [← heq.2]
      simp
    · rename_i hrj
      split at heq
      · split at heq
        · simp only [Except.ok.injEq, Prod.mk.injEq] at heq
          rw [← heq.2]
          intro hmem
          split at hmem <;> simp at hmem
        · rename_i hclsFalse
          exfalso
          simp only [Bool.or_eq_true, decide_eq_true_eq, not_or] at hclsFalse
          rcases hcls with h | h | h | h
          · exact hclsFalse.1.2 h
          · exact hclsFalse.2 h
          · exact hclsFalse.1.1 h
          · exact hrj h
      · simp only [Except.ok.injEq, Prod.mk.injEq] at heq
        rw [← heq.2]
        intro hmem
        split at hmem <;> simp at hmem

/-- Witness for C6 at a fresh push transition rejected by an application
error. -/
theorem navigationTransitionRejected_policy_witness :
    ((⟨NavType.push, false, false, false, false, false, false⟩ :
        TransitionState).isRejected = true →
      navigationTransitionRejected
          ⟨NavType.push, false, false, false, false, false, false⟩
          (ErrClass.appErr 0) false =
        Except.ok (⟨NavType.push, false, false, false, false, false, false⟩, [])) ∧
    (∀ out evs, navigationTransitionRejected
          ⟨NavType.push, false, false, false, false, false, false⟩
          (ErrClass.appErr 0) false = Except.ok (out, evs) →
      RejectEvent.rollbackInvoked ∈ evs →
      evs.indexOf RejectEvent.navigateErrorEvent <
        evs.indexOf RejectEvent.rollbackInvoked) ∧
    ((⟨NavType.push, false, false, false, false, false, false⟩ :
        TransitionState).isRejected = false →
      (⟨NavType.push, false, false, false, false, false, false⟩ :
        TransitionState).navigationType.isString = true →
      isInvalidStateError (ErrClass.appErr 0) = false →
      isAbortError (ErrClass.appErr 0) = false →
      (⟨NavType.push, false, false, false, false, false, false⟩ :
        TransitionState).rolledBack = false → false = false →
      ∃ out evs, navigationTransitionRejected
            ⟨NavType.push, false, false, false, false, false, false⟩
            (ErrClass.appErr 0) false = Except.ok (out, evs) ∧
        RejectEvent.navigateErrorEvent ∈ evs ∧
        RejectEvent.rollbackInvoked ∈ evs ∧ out.rolledBack = true) ∧
    ((⟨NavType.push, false, false, false, false, false, false⟩ :
        TransitionState).isRejected = false →
      (⟨NavType.push, false, false, false, false, false, false⟩ :
        TransitionState).navigationType.isString = true →
      isInvalidStateError (ErrClass.appErr 0) = false →
      isAbortError (ErrClass.appErr 0) = false →
      ((⟨NavType.push, false, false, false, false, false, false⟩ :
        TransitionState).rolledBack = true ∨ false = true) →
      navigationTransitionRejected
          ⟨NavType.push, false, false, false, false, false, false⟩
          (ErrClass.appErr 0) false =
        Except.error (NavErr.invalidState failedRollbackMsg)) ∧
    (∀ out evs, navigationTransitionRejected
          ⟨NavType.push, false, false, false, false, false, false⟩
          (ErrClass.appErr 0) false = Except.ok (out, evs) →
      (isInvalidStateError (ErrClass.appErr 0) = true ∨
        isAbortError (ErrClass.appErr 0) = true ∨
        (⟨NavType.push, false, false, false, false, false, false⟩ :
          TransitionState).navigationType = NavType.rollback ∨
        (⟨NavType.push, false, false, false, false, false, false⟩ :
          TransitionState).isRejected = true) →
      RejectEvent.rollbackInvoked ∉ evs) :=
  navigationTransitionRejected_policy
    ⟨NavType.push, false, false, false, false, false, false⟩ (ErrClass.appErr 0) false

/-- Counterexample to C9: `NavigationTransitionWhile` called on a
transition whose abort signal has already fired still registers the
sub-operation and raises no error (its type offers no error channel at
all). -/
theorem navigationTransitionWhile_after_abort_registers :
    navigationTransitionWhile true ⟨false, []⟩ 5 = ⟨true, [5]⟩ ∧
    (navigationTransitionWhile true ⟨false, []⟩ 5).promises ≠ [] := by
  exact ⟨rfl, by decide⟩

/-- C9 as amended: the Navigator's own registration function
(`transitionWhile`) fails immediately with
`InvalidStateError("Event has already finished processing")` once the abort
signal has fired, registering nothing, and registers the action otherwise;
`NavigationTransition`'s registration function
(`NavigationTransitionWhile`) never checks the signal and always registers. -/
theorem transitionWhile_abort_check (promises : List Nat) (p : Nat)
    (s : WhileState) :
    transitionWhile true promises p =
      Except.error
        (NavErr.invalidState "Event has already finished processing") ∧
    transitionWhile false promises p = Except.ok (promises ++ [p]) ∧
    navigationTransitionWhile true s p =
      { isOngoing := true, promises := s.promises ++ [p] } := by
  exact ⟨rfl, rfl, rfl⟩

/-- C10: `entries()` returns a fresh array copy: the returned reference is
distinct from the internal one, calling `entries()` changes no Navigator
state (the entry sequence, `currentIndex` and `known` read the same), the
returned array holds a copy of the entry sequence, and any caller mutation
of the returned array leaves the internal entry sequence unchanged. -/
theorem entriesOp_returns_fresh_copy (s : NavHeap)
    (hr : s.entriesRef < s.heap.arrays.length) :
    (entriesOp s).2 ≠ s.entriesRef ∧
    (entriesOp s).1.entriesRef = s.entriesRef ∧
    (entriesOp s).1.currentIndex = s.currentIndex ∧
    (entriesOp s).1.known = s.known ∧
    (entriesOp s).1.heap.get s.entriesRef = s.heap.get s.entriesRef ∧
    (entriesOp s).1.heap.get (entriesOp s).2 = s.heap.get s.entriesRef ∧
    ∀ v, (((entriesOp s).1.heap.write (entriesOp s).2 v).get s.entriesRef =
      s.heap.get s.entriesRef) := by
  have hne : s.heap.arrays.length ≠ s.entriesRef := by omega
  refine ⟨by simpa [entriesOp, ArrayHeap.alloc] using hne.symm ∘ Eq.symm, rfl, rfl, rfl,
    ?_, ?_, ?_⟩
  · show ((⟨s.heap.arrays ++ [s.heap.get s.entriesRef]⟩ : ArrayHeap).get s.entriesRef) = _
    unfold ArrayHeap.get
    rw [List.getElem?_append_left hr]
  · show ((⟨s.heap.arrays ++ [s.heap.get s.entriesRef]⟩ : ArrayHeap).get
      s.heap.arrays.length) = _
    unfold ArrayHeap.get
    rw [List.getElem?_concat_length]
    rfl
  · intro v
    show ((⟨(s.heap.arrays ++ [s.heap.get s.entriesRef]).set s.heap.arrays.length v⟩ :
      ArrayHeap).get s.entriesRef) = _
    unfold ArrayHeap.get
    rw [List.getElem?_set_ne hne, List.getElem?_append_left hr]

/-- Witness for C10 on a one-entry Navigator. -/
theorem entriesOp_returns_fresh_copy_witness :
    (entriesOp navHeapW).2 ≠ navHeapW.entriesRef ∧
    (entriesOp navHeapW).1.entriesRef = navHeapW.entriesRef ∧
    (entriesOp navHeapW).1.currentIndex = navHeapW.currentIndex ∧
    (entriesOp navHeapW).1.known = navHeapW.known ∧
    (entriesOp navHeapW).1.heap.get navHeapW.entriesRef =
      navHeapW.heap.get navHeapW.entriesRef ∧
    (entriesOp navHeapW).1.heap.get (entriesOp navHeapW).2 =
      navHeapW.heap.get navHeapW.entriesRef ∧
    ∀ v, (((entriesOp navHeapW).1.heap.write (entriesOp navHeapW).2 v).get
      navHeapW.entriesRef = navHeapW.heap.get navHeapW.entriesRef) :=
  entriesOp_returns_fresh_copy navHeapW (by decide)
